import Mathlib

/-
Verification of the Scout job-extraction pipeline
(src/scout/tools/extractor.py and src/scout/models.py).

The Python code is shallowly embedded: Python strings are Lean `String`
(Python slices, `str.lower`, `str.strip` and `in` are modelled per code
point on the underlying character list), Python exceptions are an explicit
error type, and the two LLM programs (the cached primary program and the
freshly built OpenAI fallback program) are oracles passed in as functions,
since their behaviour is external network I/O.  `extract_job_info` is
modelled as a pure function that also counts how many times each oracle
was invoked, so that retry claims can be stated exactly.
-/

set_option maxRecDepth 8192

/-! ## Python string primitives -/

/-- Python truthiness of a string: `not s` holds exactly when `s` is empty. -/
def pyFalsy (s : String) : Bool :=
  s.data.isEmpty

/-- Python `str.lower()`, applied code point by code point. -/
def pyLower (s : String) : String :=
  ⟨s.data.map Char.toLower⟩

/-- Python `str.upper()`, applied code point by code point. -/
def pyUpper (s : String) : String :=
  ⟨s.data.map Char.toUpper⟩

/-- Python `str.strip()`: drop leading and trailing whitespace. -/
def pyStrip (s : String) : String :=
  ⟨((s.data.dropWhile Char.isWhitespace).reverse.dropWhile Char.isWhitespace).reverse⟩

/-- Whether the character list `needle` occurs at the start of `hay`. -/
def leadsWith : List Char → List Char → Bool
  | [], _ => true
  | _ :: _, [] => false
  | a :: as, b :: bs => a == b && leadsWith as bs

/-- Whether the character list `needle` occurs contiguously inside `hay`. -/
def occursIn (needle : List Char) : List Char → Bool
  | [] => leadsWith needle []
  | b :: bs => leadsWith needle (b :: bs) || occursIn needle bs

/-- Python `needle in hay` for strings: contiguous substring test. -/
def strContainsSub (hay needle : String) : Bool :=
  occursIn needle.data hay.data

/-! ## Python exceptions (src/scout/tools/extractor.py error surface)

`otherError kind msg` stands for any exception that is neither a
`ValueError`, a `RuntimeError`, nor a pydantic `ValidationError`; `kind`
records the Python class name and `msg` the `str(e)` text.  A pydantic
`ValidationError` is kept separate because `extract_job_info` catches it
specially around the first program call; note that in Python it is a
subclass of `ValueError`, which the model accounts for in `outerWrap`. -/

inductive PyError where
  | valueError (msg : String)
  | runtimeError (msg : String)
  | validationError (msg : String)
  | otherError (kind : String) (msg : String)
deriving DecidableEq, Repr

/-- Python `str(e)`: the human-readable message of the exception. -/
def PyError.msg : PyError → String
  | .valueError m => m
  | .runtimeError m => m
  | .validationError m => m
  | .otherError _ m => m

/-- Python `isinstance(e, ValidationError)`. -/
def PyError.isValidation : PyError → Bool
  | .validationError _ => true
  | _ => false

/-! ## Enumerations (src/scout/models.py lines 5-30) -/

/-- Job experience level (`JobLevel` in src/scout/models.py). -/
inductive JobLevel where
  | INTERN | ENTRY | MID | SENIOR | STAFF | PRINCIPAL | EXECUTIVE
deriving DecidableEq, Repr

/-- Canonical value string of a `JobLevel` member. -/
def JobLevel.value : JobLevel → String
  | .INTERN => "intern"
  | .ENTRY => "entry"
  | .MID => "mid"
  | .SENIOR => "senior"
  | .STAFF => "staff"
  | .PRINCIPAL => "principal"
  | .EXECUTIVE => "executive"

/-- Symbolic name of a `JobLevel` member, as Python's `Enum.name`. -/
def JobLevel.name : JobLevel → String
  | .INTERN => "INTERN"
  | .ENTRY => "ENTRY"
  | .MID => "MID"
  | .SENIOR => "SENIOR"
  | .STAFF => "STAFF"
  | .PRINCIPAL => "PRINCIPAL"
  | .EXECUTIVE => "EXECUTIVE"

/-- The members of `JobLevel` in declaration order (Python iteration order). -/
def JobLevel.all : List JobLevel :=
  [.INTERN, .ENTRY, .MID, .SENIOR, .STAFF, .PRINCIPAL, .EXECUTIVE]

/-- Remote work arrangement type (`RemoteType` in src/scout/models.py). -/
inductive RemoteType where
  | ON_SITE | REMOTE | HYBRID | FLEXIBLE
deriving DecidableEq, Repr

/-- Canonical value string of a `RemoteType` member. -/
def RemoteType.value : RemoteType → String
  | .ON_SITE => "on_site"
  | .REMOTE => "remote"
  | .HYBRID => "hybrid"
  | .FLEXIBLE => "flexible"

/-- Symbolic name of a `RemoteType` member, as Python's `Enum.name`. -/
def RemoteType.name : RemoteType → String
  | .ON_SITE => "ON_SITE"
  | .REMOTE => "REMOTE"
  | .HYBRID => "HYBRID"
  | .FLEXIBLE => "FLEXIBLE"

/-- The members of `RemoteType` in declaration order. -/
def RemoteType.all : List RemoteType :=
  [.ON_SITE, .REMOTE, .HYBRID, .FLEXIBLE]

/-- Applicant Tracking System type (`AtsType` in src/scout/models.py). -/
inductive AtsType where
  | GREENHOUSE | LEVER | WORKDAY | TALEO | ICIMS | CUSTOM | UNKNOWN
deriving DecidableEq, Repr

/-- Canonical value string of an `AtsType` member. -/
def AtsType.value : AtsType → String
  | .GREENHOUSE => "greenhouse"
  | .LEVER => "lever"
  | .WORKDAY => "workday"
  | .TALEO => "taleo"
  | .ICIMS => "icims"
  | .CUSTOM => "custom"
  | .UNKNOWN => "unknown"

/-- Symbolic name of an `AtsType` member, as Python's `Enum.name`. -/
def AtsType.name : AtsType → String
  | .GREENHOUSE => "GREENHOUSE"
  | .LEVER => "LEVER"
  | .WORKDAY => "WORKDAY"
  | .TALEO => "TALEO"
  | .ICIMS => "ICIMS"
  | .CUSTOM => "CUSTOM"
  | .UNKNOWN => "UNKNOWN"

/-- The members of `AtsType` in declaration order. -/
def AtsType.all : List AtsType :=
  [.GREENHOUSE, .LEVER, .WORKDAY, .TALEO, .ICIMS, .CUSTOM, .UNKNOWN]

/-! ## The JobInfo record (src/scout/models.py lines 33-47)

The LLM's structured output can leave an enum-typed field as `None`, as a
raw Python string, or as an actual enum member; `extract_job_info`
explicitly `isinstance`-checks for strings before repairing, so the
embedding keeps all three possibilities. -/

/-- An enum-typed field of the raw LLM result: absent, a raw string, or a
member of the enumeration `α`. -/
inductive EnumField (α : Type) where
  | none
  | str (s : String)
  | enum (e : α)
deriving DecidableEq, Repr

/-- The `JobInfo` pydantic model of src/scout/models.py. -/
structure JobInfo where
  company : String
  contact_person : Option String
  title : String
  location : String
  salary : Option String
  url : String
  date_applied : Option String
  date_confirmation : Option String
  date_latest_reply : Option String
  status : Option String
  reason_outcome : Option String
  level : EnumField JobLevel
  remote_type : EnumField RemoteType
  ats : EnumField AtsType
deriving DecidableEq, Repr

/-! ## Enum repair (src/scout/tools/extractor.py lines 425-478) -/

/-- The per-member match test of the repair loop for `level`: the member's
value, lowercased, against the stripped-and-lowercased input, or the
member's name, uppercased, against the uppercased input (extractor.py
lines 434-443). -/
def levelMatches (t : String) (e : JobLevel) : Bool :=
  pyLower e.value == t || pyUpper e.name == pyUpper t

/-- The per-member match test of the repair loop for `remote_type`
(extractor.py lines 451-459). -/
def remoteMatches (t : String) (e : RemoteType) : Bool :=
  pyLower e.value == t || pyUpper e.name == pyUpper t

/-- The per-member match test of the repair loop for `ats`
(extractor.py lines 467-475). -/
def atsMatches (t : String) (e : AtsType) : Bool :=
  pyLower e.value == t || pyUpper e.name == pyUpper t

/-- Repair of the `level` field (extractor.py lines 430-446): runs only
when the field holds a truthy string; first matching member wins, a miss
becomes `None`. -/
def repairLevel : EnumField JobLevel → EnumField JobLevel
  | .str s =>
    if pyFalsy s then .str s
    else
      let t := pyLower (pyStrip s)
      match JobLevel.all.find? (levelMatches t) with
      | some e => .enum e
      | none => .none
  | f => f

/-- Repair of the `remote_type` field (extractor.py lines 448-462). -/
def repairRemote : EnumField RemoteType → EnumField RemoteType
  | .str s =>
    if pyFalsy s then .str s
    else
      let t := pyLower (pyStrip s)
      match RemoteType.all.find? (remoteMatches t) with
      | some e => .enum e
      | none => .none
  | f => f

/-- Repair of the `ats` field (extractor.py lines 464-478). -/
def repairAts : EnumField AtsType → EnumField AtsType
  | .str s =>
    if pyFalsy s then .str s
    else
      let t := pyLower (pyStrip s)
      match AtsType.all.find? (atsMatches t) with
      | some e => .enum e
      | none => .none
  | f => f

/-- The three field repairs applied to a raw result (extractor.py
lines 430-478); no other field is touched. -/
def repairAll (r : JobInfo) : JobInfo :=
  { r with
    level := repairLevel r.level
    remote_type := repairRemote r.remote_type
    ats := repairAts r.ats }

/-- URL backfill (extractor.py lines 485-487): replace the extracted URL
by the caller-supplied one when it is falsy, or equal to `"unknown"`, or
lowercases to `"unknown"`. -/
def resolveUrl (r : JobInfo) (url : String) : JobInfo :=
  if pyFalsy r.url || r.url == "unknown" || pyLower r.url == "unknown" then
    { r with url := url }
  else r

/-- The diagnostic message of the required-field check (extractor.py
lines 491-494). -/
def missingFieldsMsg (r : JobInfo) : String :=
  "Extraction failed: missing required fields. Got company=" ++ r.company ++
    ", title=" ++ r.title ++ ", location=" ++ r.location

/-- The post-extraction normalization step (extractor.py lines 425-497):
enum repair, URL backfill, then the required-field check, raising
`ValueError` when company, title or location is falsy. -/
def normalizeResult (result : JobInfo) (url : String) : Except PyError JobInfo :=
  let r2 := resolveUrl (repairAll result) url
  if pyFalsy r2.company || pyFalsy r2.title || pyFalsy r2.location then
    Except.error (PyError.valueError (missingFieldsMsg r2))
  else
    Except.ok r2

/-! ## Preprocessing (extractor.py lines 296-321 and 346-356) -/

/-- The default character budget of `_clean_and_truncate_html` and of the
plain-text branch of `extract_job_info`. -/
def MAX_CHARS : Nat := 300000

/-- The marker appended to truncated text. -/
def TRUNCATION_MARKER : String := "\n[... truncated ...]"

/-- The plain-text branch of preprocessing (extractor.py lines 350-356):
over-budget text keeps its first `MAX_CHARS` characters plus the marker,
in-budget text is stripped. -/
def truncatePlain (text : String) : String :=
  if text.length > MAX_CHARS then ⟨text.data.take MAX_CHARS ++ TRUNCATION_MARKER.data⟩
  else pyStrip text

/-- `_clean_and_truncate_html` (extractor.py lines 296-321): BeautifulSoup
text extraction is external, so it enters as the oracle `soupText`; the
truncation applied to its output is modelled exactly. -/
def clean_and_truncate_html (soupText : String → String) (html : String) : String :=
  let text := soupText html
  if text.length > MAX_CHARS then ⟨text.data.take MAX_CHARS ++ TRUNCATION_MARKER.data⟩
  else text

/-- The preprocessing of `extract_job_info` (extractor.py lines 346-356):
HTML-looking input goes through `_clean_and_truncate_html`, anything else
through the plain-text branch. -/
def preprocess (soupText : String → String) (text : String) : String :=
  if strContainsSub (pyLower text) "<html" || strContainsSub (pyLower text) "<body" then
    clean_and_truncate_html soupText text
  else
    truncatePlain text

/-! ## The extraction pipeline (extractor.py lines 324-504) -/

/-- Throttling classification (extractor.py lines 367-370): case-insensitive
substring match of the error text against the three throttle markers. -/
def isThrottled (msg : String) : Bool :=
  let m := pyLower msg
  strContainsSub m "rate limit" || strContainsSub m "429" || strContainsSub m "usage limit"

/-- The outermost handlers of `extract_job_info` (extractor.py lines
499-504): `ValueError` and `RuntimeError` re-raise unchanged (a pydantic
`ValidationError` is a `ValueError` subclass, so it also passes through);
every other exception is wrapped into a `RuntimeError` whose message
embeds the original text. -/
def outerWrap : PyError → PyError
  | .otherError _ m => .runtimeError ("Job extraction failed: " ++ m)
  | e => e

/-- The observable outcome of one `extract_job_info` call: the returned
record or propagated exception, plus how often the primary program and
the fallback program were invoked. -/
structure ExtractOutcome where
  result : Except PyError JobInfo
  primaryCalls : Nat
  fallbackCalls : Nat

/-- `extract_job_info` (extractor.py lines 324-504).

`getProgram` is the outcome of `get_job_info_program()` (an error when
program construction raises); `mkFallback` is the outcome of building the
fresh OpenAI-bound program inside the throttle handler (lines 404-417);
`openaiKey` and `openaiAvailable` are `OPENAI_API_KEY` and
`OPENAI_AVAILABLE`; `soupText` is the external BeautifulSoup text
extraction.  The call counts record how often each program oracle ran. -/
def extract_job_info
    (getProgram : Except PyError (String → Except PyError JobInfo))
    (mkFallback : Except PyError (String → Except PyError JobInfo))
    (openaiKey : Bool) (openaiAvailable : Bool)
    (soupText : String → String)
    (text : String) (url : String) : ExtractOutcome :=
  if pyFalsy text || pyFalsy (pyStrip text) then
    { result := Except.error (PyError.valueError "Text input cannot be empty")
      primaryCalls := 0, fallbackCalls := 0 }
  else
    match getProgram with
    | Except.error e =>
        { result := Except.error (outerWrap e), primaryCalls := 0, fallbackCalls := 0 }
    | Except.ok program =>
      let tfe := preprocess soupText text
      match program tfe with
      | Except.ok raw =>
          { result := (normalizeResult raw url).mapError outerWrap
            primaryCalls := 1, fallbackCalls := 0 }
      | Except.error e =>
        if e.isValidation then
          { result := Except.error
              (PyError.runtimeError ("Extracted data validation failed: " ++ e.msg))
            primaryCalls := 1, fallbackCalls := 0 }
        else if isThrottled e.msg && openaiKey && openaiAvailable then
          match mkFallback with
          | Except.error ce =>
              { result := Except.error (outerWrap ce), primaryCalls := 1, fallbackCalls := 0 }
          | Except.ok fallbackProgram =>
            match fallbackProgram tfe with
            | Except.ok raw =>
                { result := (normalizeResult raw url).mapError outerWrap
                  primaryCalls := 1, fallbackCalls := 1 }
            | Except.error e2 =>
                { result := Except.error (outerWrap e2), primaryCalls := 1, fallbackCalls := 1 }
        else
          { result := Except.error (outerWrap e), primaryCalls := 1, fallbackCalls := 0 }

/-! ## Concrete fixtures used by witnesses and counterexamples -/

/-- A fully populated raw result with all optional fields absent and the
placeholder URL, as the prompt instructs the model to produce. -/
def sampleRaw : JobInfo :=
  { company := "Acme Corp", contact_person := none, title := "Backend Engineer"
    location := "Austin, TX", salary := none, url := "unknown"
    date_applied := none, date_confirmation := none, date_latest_reply := none
    status := none, reason_outcome := none
    level := .none, remote_type := .none, ats := .none }

/-- A primary-program oracle that fails with a throttling-classified error. -/
def throttleFail : String → Except PyError JobInfo :=
  fun _ => Except.error (PyError.otherError "Exception" "Error code: 429 - rate limit exceeded")

/-- A fallback-program oracle that fails with a generic error. -/
def fallbackBoom : String → Except PyError JobInfo :=
  fun _ => Except.error (PyError.otherError "ConnectionError" "boom")

/-- A primary-program oracle that fails with a non-throttling error. -/
def resetFail : String → Except PyError JobInfo :=
  fun _ => Except.error (PyError.otherError "OSError" "connection reset")

/-- An over-budget plain-text input (400,000 characters). -/
def bigText : String := ⟨List.replicate 400000 'a'⟩

/-- An already-valid record: enum fields are members, a genuine URL, all
required fields populated. -/
def validSample : JobInfo :=
  { sampleRaw with
    url := "https://a/b"
    level := .enum .SENIOR
    remote_type := .enum .HYBRID
    ats := .enum .LEVER }

/-! ## Helper lemmas -/

lemma pyFalsy_eq_true {s : String} : pyFalsy s = true ↔ s = "" := by
  cases s with
  | mk d =>
    cases d with
    | nil => exact ⟨fun _ => rfl, fun _ => rfl⟩
    | cons c cs =>
      constructor
      · intro h; exact absurd h (by simp [pyFalsy])
      · intro h; exact absurd (congrArg String.data h) (List.cons_ne_nil c cs)

lemma pyFalsy_eq_false {s : String} : pyFalsy s = false ↔ s ≠ "" := by
  rw [← Bool.not_eq_true, pyFalsy_eq_true]

lemma resolveUrl_cases (r : JobInfo) (u : String) :
    resolveUrl r u = { r with url := u } ∨ resolveUrl r u = r := by
  unfold resolveUrl
  split
  · exact Or.inl rfl
  · exact Or.inr rfl

lemma resolveUrl_repairAll_frame (r : JobInfo) (u : String) :
    (resolveUrl (repairAll r) u).company = r.company ∧
    (resolveUrl (repairAll r) u).contact_person = r.contact_person ∧
    (resolveUrl (repairAll r) u).title = r.title ∧
    (resolveUrl (repairAll r) u).location = r.location ∧
    (resolveUrl (repairAll r) u).salary = r.salary ∧
    (resolveUrl (repairAll r) u).date_applied = r.date_applied ∧
    (resolveUrl (repairAll r) u).date_confirmation = r.date_confirmation ∧
    (resolveUrl (repairAll r) u).date_latest_reply = r.date_latest_reply ∧
    (resolveUrl (repairAll r) u).status = r.status ∧
    (resolveUrl (repairAll r) u).reason_outcome = r.reason_outcome := by
  rcases resolveUrl_cases (repairAll r) u with h | h <;> rw [h] <;>
    exact ⟨rfl, rfl, rfl, rfl, rfl, rfl, rfl, rfl, rfl, rfl⟩

lemma normalizeResult_ok_of_required (r : JobInfo) (u : String)
    (hc : r.company ≠ "") (ht : r.title ≠ "") (hl : r.location ≠ "") :
    normalizeResult r u = Except.ok (resolveUrl (repairAll r) u) := by
  obtain ⟨h1, _, h3, h4, _⟩ := resolveUrl_repairAll_frame r u
  simp only [normalizeResult]
  rw [h1, h3, h4, pyFalsy_eq_false.mpr hc, pyFalsy_eq_false.mpr ht, pyFalsy_eq_false.mpr hl]
  simp

lemma normalizeResult_error_of_missing (r : JobInfo) (u : String)
    (h : (pyFalsy r.company || pyFalsy r.title || pyFalsy r.location) = true) :
    normalizeResult r u =
      Except.error (PyError.valueError (missingFieldsMsg r)) := by
  obtain ⟨h1, _, h3, h4, _⟩ := resolveUrl_repairAll_frame r u
  have hmsg : missingFieldsMsg (resolveUrl (repairAll r) u) = missingFieldsMsg r := by
    unfold missingFieldsMsg
    rw [h1, h3, h4]
  simp only [normalizeResult]
  rw [h1, h3, h4, hmsg, h]
  simp

/-! ## Claim theorems -/

/-- Claim C4 (confirmed): for every raw result, if company, title or
location is empty after enum repair and URL backfill then normalization
fails with a `ValueError` naming the three required fields and carrying
their values, and no record is returned; if all three are non-empty a
record is returned. -/
theorem C4_required_fields (r : JobInfo) (u : String) :
    ((pyFalsy r.company || pyFalsy r.title || pyFalsy r.location) = true →
      normalizeResult r u = Except.error (PyError.valueError
        ("Extraction failed: missing required fields. Got company=" ++ r.company ++
          ", title=" ++ r.title ++ ", location=" ++ r.location))) ∧
    ((pyFalsy r.company || pyFalsy r.title || pyFalsy r.location) = false →
      ∃ rec : JobInfo, normalizeResult r u = Except.ok rec) := by
  constructor
  · intro h
    exact normalizeResult_error_of_missing r u h
  · intro h
    rw [Bool.or_eq_false_iff, Bool.or_eq_false_iff] at h
    obtain ⟨⟨hc, ht⟩, hl⟩ := h
    exact ⟨_, normalizeResult_ok_of_required r u (pyFalsy_eq_false.mp hc)
      (pyFalsy_eq_false.mp ht) (pyFalsy_eq_false.mp hl)⟩

/-- Witness for C4: a raw result with empty company fails with the
diagnostic `ValueError`; the fully populated `sampleRaw` succeeds. -/
theorem C4_required_fields_witness :
    normalizeResult { sampleRaw with company := "" } "https://x/1" =
      Except.error (PyError.valueError
        ("Extraction failed: missing required fields. Got company=" ++ "" ++
          ", title=" ++ "Backend Engineer" ++ ", location=" ++ "Austin, TX")) ∧
    (∃ rec : JobInfo, normalizeResult sampleRaw "https://x/1" = Except.ok rec) :=
  ⟨(C4_required_fields { sampleRaw with company := "" } "https://x/1").1 (by decide),
   (C4_required_fields sampleRaw "https://x/1").2 (by decide)⟩

/-- Claim C10 (confirmed): normalization mutates at most level,
remote_type, ats and url: whenever a record is returned, its company,
contact_person, title, location, salary, the three date fields, status
and reason_outcome are identical to the raw result's values. -/
theorem C10_frame (r : JobInfo) (u : String) (rec : JobInfo)
    (h : normalizeResult r u = Except.ok rec) :
    rec.company = r.company ∧ rec.contact_person = r.contact_person ∧
    rec.title = r.title ∧ rec.location = r.location ∧ rec.salary = r.salary ∧
    rec.date_applied = r.date_applied ∧ rec.date_confirmation = r.date_confirmation ∧
    rec.date_latest_reply = r.date_latest_reply ∧ rec.status = r.status ∧
    rec.reason_outcome = r.reason_outcome := by
  simp only [normalizeResult] at h
  split at h
  · exact absurd h (by simp)
  · injection h with h'
    subst h'
    exact resolveUrl_repairAll_frame r u

/-- Witness for C10: normalizing `sampleRaw` returns a record whose
untouched fields coincide with the raw ones. -/
theorem C10_frame_witness :
    { sampleRaw with url := "https://x/1" }.company = sampleRaw.company ∧
    { sampleRaw with url := "https://x/1" }.status = sampleRaw.status :=
  have h := C10_frame sampleRaw "https://x/1" { sampleRaw with url := "https://x/1" } (by rfl)
  ⟨h.1, h.2.2.2.2.2.2.2.2.1⟩

lemma urlCond_iff (s : String) :
    (pyFalsy s || s == "unknown" || pyLower s == "unknown") = true ↔
      (s = "" ∨ pyLower s = "unknown") := by
  simp only [Bool.or_eq_true, beq_iff_eq, pyFalsy_eq_true]
  constructor
  · rintro ((h | h) | h)
    · exact Or.inl h
    · subst h; exact Or.inr (by decide)
    · exact Or.inr h
  · rintro (h | h)
    · exact Or.inl (Or.inl h)
    · exact Or.inr h

lemma resolveUrl_url (r : JobInfo) (u : String) :
    ((r.url = "" ∨ pyLower r.url = "unknown") → (resolveUrl r u).url = u) ∧
    (r.url ≠ "" → pyLower r.url ≠ "unknown" → (resolveUrl r u).url = r.url) := by
  unfold resolveUrl
  split
  case isTrue hc =>
    refine ⟨fun _ => rfl, fun h1 h2 => absurd ((urlCond_iff r.url).mp hc) ?_⟩
    rintro (h | h)
    · exact h1 h
    · exact h2 h
  case isFalse hc =>
    refine ⟨fun h => absurd ((urlCond_iff r.url).mpr h) hc, fun _ _ => rfl⟩

/-- Claim C5 (corrected): whenever normalization returns a record, its url
follows the precedence of the code — the extracted value is kept when it
is non-empty and does not lowercase to the placeholder "unknown",
otherwise it is replaced by the caller-supplied URL — and the returned
url is non-empty provided the caller-supplied URL is non-empty.  (The
original claim's unconditional "url is a non-empty string in every
returned record" fails when the caller supplies an empty URL, see the
counterexample.) -/
theorem C5_url_resolution (r : JobInfo) (u : String) (rec : JobInfo)
    (h : normalizeResult r u = Except.ok rec) :
    (r.url ≠ "" → pyLower r.url ≠ "unknown" → rec.url = r.url) ∧
    ((r.url = "" ∨ pyLower r.url = "unknown") → rec.url = u) ∧
    (u ≠ "" → rec.url ≠ "") := by
  simp only [normalizeResult] at h
  split at h
  · exact absurd h (by simp)
  · injection h with h'
    subst h'
    have hru : (repairAll r).url = r.url := rfl
    obtain ⟨hkeep0, hrepl0⟩ := resolveUrl_url (repairAll r) u
    rw [hru] at hkeep0 hrepl0
    refine ⟨hrepl0, hkeep0, ?_⟩
    intro hu
    by_cases hc : r.url = "" ∨ pyLower r.url = "unknown"
    · rw [hkeep0 hc]; exact hu
    · push_neg at hc
      rw [hrepl0 hc.1 hc.2]; exact hc.1

/-- Witness for C5: the placeholder cases "UNKNOWN" and the genuine URL
"https://real/2" from the spec's test table, settled by the theorem. -/
theorem C5_url_resolution_witness :
    { sampleRaw with url := "https://x/1" }.url = "https://x/1" ∧
    { sampleRaw with url := "https://real/2" }.url = "https://real/2" :=
  ⟨(C5_url_resolution { sampleRaw with url := "UNKNOWN" } "https://x/1"
      { sampleRaw with url := "https://x/1" } (by rfl)).2.1 (Or.inr (by decide)),
   (C5_url_resolution { sampleRaw with url := "https://real/2" } "https://x/1"
      { sampleRaw with url := "https://real/2" } (by rfl)).1 (by decide) (by decide)⟩

/-- Counterexample for C5 as stated: with an empty caller-supplied URL and
an empty extracted URL, `extract_job_info` returns a record whose url is
the empty string, so url is not non-empty in every returned record. -/
theorem C5_counterexample :
    (extract_job_info (Except.ok fun _ => Except.ok { sampleRaw with url := "" })
        (Except.ok fun _ => Except.ok { sampleRaw with url := "" })
        false false (fun s => s) "Acme Corp job posting" "").result =
      Except.ok { sampleRaw with url := "" } ∧
    { sampleRaw with url := "" }.url = "" :=
  ⟨rfl, rfl⟩

/-- Claim C9 (confirmed): normalization is idempotent on already-valid
results: when the enum fields are members or absent, the url is non-empty
and not the placeholder, and the required fields are populated, the step
returns the record unchanged. -/
theorem C9_idempotent (r : JobInfo) (u : String)
    (hlev : r.level = EnumField.none ∨ ∃ e, r.level = EnumField.enum e)
    (hrem : r.remote_type = EnumField.none ∨ ∃ e, r.remote_type = EnumField.enum e)
    (hats : r.ats = EnumField.none ∨ ∃ e, r.ats = EnumField.enum e)
    (hurl : r.url ≠ "") (hurl2 : pyLower r.url ≠ "unknown")
    (hc : r.company ≠ "") (ht : r.title ≠ "") (hl : r.location ≠ "") :
    normalizeResult r u = Except.ok r := by
  have hL : repairLevel r.level = r.level := by
    rcases hlev with h | ⟨e, h⟩ <;> rw [h] <;> rfl
  have hR : repairRemote r.remote_type = r.remote_type := by
    rcases hrem with h | ⟨e, h⟩ <;> rw [h] <;> rfl
  have hA : repairAts r.ats = r.ats := by
    rcases hats with h | ⟨e, h⟩ <;> rw [h] <;> rfl
  have hrepair : repairAll r = r := by
    unfold repairAll
    rw [hL, hR, hA]
  have hres : resolveUrl r u = r := by
    unfold resolveUrl
    rw [if_neg]
    intro hcond
    rcases (urlCond_iff r.url).mp hcond with h | h
    · exact hurl h
    · exact hurl2 h
  rw [normalizeResult_ok_of_required r u hc ht hl, hrepair, hres]

/-- Witness for C9: a concrete already-valid record is returned unchanged. -/
theorem C9_idempotent_witness :
    normalizeResult validSample "https://x/1" = Except.ok validSample :=
  C9_idempotent validSample "https://x/1"
    (Or.inr ⟨.SENIOR, rfl⟩) (Or.inr ⟨.HYBRID, rfl⟩) (Or.inr ⟨.LEVER, rfl⟩)
    (by decide) (by decide) (by decide) (by decide) (by decide)

/-- Counterexample for C1 as stated: the dotted "EnumName.MEMBER" form is
not handled by the repair loop — it maps the field to absent, not to the
named member, for all three enumerations. -/
theorem C1_counterexample :
    repairLevel (EnumField.str "JobLevel.INTERN") = EnumField.none ∧
    (EnumField.none : EnumField JobLevel) ≠ EnumField.enum JobLevel.INTERN ∧
    repairRemote (EnumField.str "RemoteType.REMOTE") = EnumField.none ∧
    repairAts (EnumField.str "AtsType.LEVER") = EnumField.none := by
  exact ⟨by decide, by decide, by decide, by decide⟩

/-- Claim C1 (corrected): for every member of the three enumerations, the
lowercase canonical value and the upper- or lower-cased symbolic name all
map to that member (the value test and the name test coincide member by
member, so the order of the two checks is unobservable); the dotted
"EnumName.MEMBER" form matches nothing and maps the field to absent. -/
theorem C1_enum_coercion :
    (∀ e : JobLevel,
      repairLevel (EnumField.str e.value) = EnumField.enum e ∧
      repairLevel (EnumField.str e.name) = EnumField.enum e ∧
      repairLevel (EnumField.str (pyLower e.name)) = EnumField.enum e ∧
      repairLevel (EnumField.str ("JobLevel." ++ e.name)) = EnumField.none) ∧
    (∀ e : RemoteType,
      repairRemote (EnumField.str e.value) = EnumField.enum e ∧
      repairRemote (EnumField.str e.name) = EnumField.enum e ∧
      repairRemote (EnumField.str (pyLower e.name)) = EnumField.enum e ∧
      repairRemote (EnumField.str ("RemoteType." ++ e.name)) = EnumField.none) ∧
    (∀ e : AtsType,
      repairAts (EnumField.str e.value) = EnumField.enum e ∧
      repairAts (EnumField.str e.name) = EnumField.enum e ∧
      repairAts (EnumField.str (pyLower e.name)) = EnumField.enum e ∧
      repairAts (EnumField.str ("AtsType." ++ e.name)) = EnumField.none) := by
  refine ⟨fun e => ?_, fun e => ?_, fun e => ?_⟩ <;> cases e <;>
    exact ⟨by decide, by decide, by decide, by decide⟩

lemma matches_eq_false {v n t : String} (hv : pyLower v = v) (hn : pyUpper n = n)
    (h1 : t ≠ v) (h2 : pyUpper t ≠ n) :
    (pyLower v == t || pyUpper n == pyUpper t) = false := by
  rw [hv, hn, Bool.or_eq_false_iff]
  constructor
  · exact beq_eq_false_iff_ne.mpr fun hvt => h1 hvt.symm
  · exact beq_eq_false_iff_ne.mpr fun hnt => h2 hnt.symm

lemma levelMatches_false {t : String} (e : JobLevel)
    (h1 : t ≠ e.value) (h2 : pyUpper t ≠ e.name) : levelMatches t e = false := by
  cases e <;> exact matches_eq_false (by decide) (by decide) h1 h2

lemma remoteMatches_false {t : String} (e : RemoteType)
    (h1 : t ≠ e.value) (h2 : pyUpper t ≠ e.name) : remoteMatches t e = false := by
  cases e <;> exact matches_eq_false (by decide) (by decide) h1 h2

lemma atsMatches_false {t : String} (e : AtsType)
    (h1 : t ≠ e.value) (h2 : pyUpper t ≠ e.name) : atsMatches t e = false := by
  cases e <;> exact matches_eq_false (by decide) (by decide) h1 h2

/-- Claim C7 (corrected): every non-empty string that matches no member of
its enumeration — neither as stripped-and-lowercased canonical value nor
as uppercased symbolic name — is normalized to absent, and normalization
never fails because of an enum field: with the required fields populated
it returns a record whatever the enum fields hold.  (The original claim's
"every non-matching string becomes absent" fails for the empty string,
which the truthiness guard leaves in place, see the counterexample.) -/
theorem C7_unmatched_enum (s : String) (hs : s ≠ "") :
    ((∀ e : JobLevel, pyLower (pyStrip s) ≠ e.value ∧
        pyUpper (pyLower (pyStrip s)) ≠ e.name) →
      repairLevel (EnumField.str s) = EnumField.none) ∧
    ((∀ e : RemoteType, pyLower (pyStrip s) ≠ e.value ∧
        pyUpper (pyLower (pyStrip s)) ≠ e.name) →
      repairRemote (EnumField.str s) = EnumField.none) ∧
    ((∀ e : AtsType, pyLower (pyStrip s) ≠ e.value ∧
        pyUpper (pyLower (pyStrip s)) ≠ e.name) →
      repairAts (EnumField.str s) = EnumField.none) ∧
    (∀ (r : JobInfo) (u : String), r.company ≠ "" → r.title ≠ "" → r.location ≠ "" →
      ∃ rec, normalizeResult r u = Except.ok rec) := by
  refine ⟨fun hL => ?_, fun hR => ?_, fun hA => ?_,
    fun r u hc ht hl => ⟨_, normalizeResult_ok_of_required r u hc ht hl⟩⟩
  · have hfind : JobLevel.all.find? (levelMatches (pyLower (pyStrip s))) = none :=
      List.find?_eq_none.mpr fun x _ => by
        simp [levelMatches_false x (hL x).1 (hL x).2]
    simp [repairLevel, pyFalsy_eq_false.mpr hs, hfind]
  · have hfind : RemoteType.all.find? (remoteMatches (pyLower (pyStrip s))) = none :=
      List.find?_eq_none.mpr fun x _ => by
        simp [remoteMatches_false x (hR x).1 (hR x).2]
    simp [repairRemote, pyFalsy_eq_false.mpr hs, hfind]
  · have hfind : AtsType.all.find? (atsMatches (pyLower (pyStrip s))) = none :=
      List.find?_eq_none.mpr fun x _ => by
        simp [atsMatches_false x (hA x).1 (hA x).2]
    simp [repairAts, pyFalsy_eq_false.mpr hs, hfind]

/-- Witness for C7: "hybrid" matches no JobLevel member even though it is
a RemoteType value, and it normalizes the level field to absent; the
gibberish strings do the same for remote_type and ats, all without
error. -/
theorem C7_unmatched_enum_witness :
    repairLevel (EnumField.str "hybrid") = EnumField.none ∧
    repairRemote (EnumField.str "definitely-not-a-remote") = EnumField.none ∧
    repairAts (EnumField.str "definitely-not-an-ats") = EnumField.none :=
  ⟨(C7_unmatched_enum "hybrid" (by decide)).1
      (fun e => by cases e <;> exact ⟨by decide, by decide⟩),
   (C7_unmatched_enum "definitely-not-a-remote" (by decide)).2.1
      (fun e => by cases e <;> exact ⟨by decide, by decide⟩),
   (C7_unmatched_enum "definitely-not-an-ats" (by decide)).2.2.1
      (fun e => by cases e <;> exact ⟨by decide, by decide⟩)⟩

/-- Counterexample for C7 as stated: the empty string matches no accepted
form, yet the truthiness guard skips the repair entirely, so the raw
empty string survives into the returned record instead of becoming
absent. -/
theorem C7_counterexample :
    repairLevel (EnumField.str "") = EnumField.str "" ∧
    (EnumField.str "" : EnumField JobLevel) ≠ EnumField.none ∧
    normalizeResult { sampleRaw with level := EnumField.str "" } "https://x/1" =
      Except.ok { sampleRaw with level := EnumField.str "", url := "https://x/1" } := by
  exact ⟨by decide, by decide, rfl⟩

lemma emptyCheck_false (text : String) (h : pyFalsy (pyStrip text) = false) :
    (pyFalsy text || pyFalsy (pyStrip text)) = false := by
  rw [h, Bool.or_false, pyFalsy_eq_false]
  intro hc
  rw [hc] at h
  exact absurd h (by decide)

/-- Claim C8 (confirmed): for every input that is empty or whitespace-only,
extraction fails immediately with the invalid-input `ValueError`, before
any provider call (both call counts are zero), for every configuration. -/
theorem C8_empty_input
    (getProgram mkFallback : Except PyError (String → Except PyError JobInfo))
    (openaiKey openaiAvailable : Bool) (soupText : String → String)
    (text url : String)
    (h : text.data.all Char.isWhitespace = true) :
    extract_job_info getProgram mkFallback openaiKey openaiAvailable soupText text url =
      { result := Except.error (PyError.valueError "Text input cannot be empty")
        primaryCalls := 0, fallbackCalls := 0 } := by
  have hd : text.data.dropWhile Char.isWhitespace = [] := by
    rw [List.dropWhile_eq_nil_iff]
    intro x hx
    exact List.all_eq_true.mp h x hx
  have hs : pyFalsy (pyStrip text) = true := by
    simp [pyFalsy, pyStrip, hd]
  unfold extract_job_info
  rw [hs, Bool.or_true]
  simp

/-- Witness for C8: the spec's example input of spaces, a newline and a
tab is rejected before any provider call. -/
theorem C8_empty_input_witness :
    extract_job_info (Except.ok fun _ => Except.ok sampleRaw)
        (Except.ok fun _ => Except.ok sampleRaw) true true (fun s => s)
        "   \n\t " "https://x/1" =
      { result := Except.error (PyError.valueError "Text input cannot be empty")
        primaryCalls := 0, fallbackCalls := 0 } :=
  C8_empty_input _ _ true true _ "   \n\t " "https://x/1" (by decide)

/-- Claim C6 (confirmed): text longer than the 300,000-character budget is
truncated to the budget with the marker appended — the output length is
exactly the budget plus the marker length (hence at most that), and the
output ends with the marker; text within the budget is not truncated (the
plain-text branch merely strips surrounding whitespace, the HTML branch
returns the soup-extracted text unchanged) and no marker is appended. -/
theorem C6_truncation (text : String) (soupText : String → String) :
    (text.length > MAX_CHARS →
      (truncatePlain text).length = MAX_CHARS + TRUNCATION_MARKER.length ∧
      List.IsSuffix TRUNCATION_MARKER.data (truncatePlain text).data) ∧
    (text.length ≤ MAX_CHARS → truncatePlain text = pyStrip text) ∧
    ((soupText text).length > MAX_CHARS →
      (clean_and_truncate_html soupText text).length =
        MAX_CHARS + TRUNCATION_MARKER.length ∧
      List.IsSuffix TRUNCATION_MARKER.data (clean_and_truncate_html soupText text).data) ∧
    ((soupText text).length ≤ MAX_CHARS →
      clean_and_truncate_html soupText text = soupText text) := by
  refine ⟨fun h => ⟨?_, ?_⟩, fun h => ?_, fun h => ⟨?_, ?_⟩, fun h => ?_⟩
  · unfold truncatePlain
    rw [if_pos h]
    show (text.data.take MAX_CHARS ++ TRUNCATION_MARKER.data).length =
      MAX_CHARS + TRUNCATION_MARKER.length
    rw [List.length_append, List.length_take]
    have h' : MAX_CHARS ≤ text.data.length := le_of_lt h
    rw [min_eq_left h']
    rfl
  · unfold truncatePlain
    rw [if_pos h]
    exact List.suffix_append _ _
  · unfold truncatePlain
    rw [if_neg (not_lt.mpr h)]
  · unfold clean_and_truncate_html
    rw [if_pos h]
    show ((soupText text).data.take MAX_CHARS ++ TRUNCATION_MARKER.data).length =
      MAX_CHARS + TRUNCATION_MARKER.length
    rw [List.length_append, List.length_take]
    have h' : MAX_CHARS ≤ (soupText text).data.length := le_of_lt h
    rw [min_eq_left h']
    rfl
  · unfold clean_and_truncate_html
    rw [if_pos h]
    exact List.suffix_append _ _
  · unfold clean_and_truncate_html
    rw [if_neg (not_lt.mpr h)]

/-- Witness for C6: the spec's 400,000-character input is truncated to the
budget plus marker and ends with the marker; a short input is only
stripped. -/
theorem C6_truncation_witness :
    bigText.length > MAX_CHARS ∧
    (truncatePlain bigText).length = MAX_CHARS + TRUNCATION_MARKER.length ∧
    List.IsSuffix TRUNCATION_MARKER.data (truncatePlain bigText).data ∧
    truncatePlain "Acme Corp is hiring" = pyStrip "Acme Corp is hiring" := by
  have hbig : bigText.length > MAX_CHARS := by
    show (List.replicate 400000 'a').length > MAX_CHARS
    rw [List.length_replicate]
    show 400000 > 300000
    decide
  have h1 := (C6_truncation bigText (fun s => s)).1 hbig
  have h2 := (C6_truncation "Acme Corp is hiring" (fun s => s)).2.1 (by decide)
  exact ⟨hbig, h1.1, h1.2, h2⟩

/-- Counterexample for C2 as stated: the primary program fails with a
"429" error, the fallback is configured and available, the single retry
fails with a generic exception "boom" — and the caller receives a fresh
`RuntimeError` with message "Job extraction failed: boom", not the
retry's own error unchanged. -/
theorem C2_counterexample :
    (extract_job_info (Except.ok throttleFail) (Except.ok fallbackBoom)
        true true (fun s => s) "Sample posting" "https://x/1") =
      { result := Except.error (PyError.runtimeError "Job extraction failed: boom")
        primaryCalls := 1, fallbackCalls := 1 } ∧
    PyError.runtimeError "Job extraction failed: boom" ≠
      PyError.otherError "ConnectionError" "boom" :=
  ⟨rfl, by decide⟩

/-- Claim C2 (corrected): when the extraction call fails with an error
(other than a pydantic `ValidationError`, which is intercepted earlier)
whose message contains "rate limit", "429" or "usage limit"
case-insensitively, and the fallback credential is configured, the
implementation available and the fresh fallback extractor constructed,
then exactly one retry runs against the fallback extractor with the same
preprocessed text; if that retry fails no further retry is attempted and
its error reaches the caller through the outermost handler, which leaves
a `ValueError` or `RuntimeError` unchanged but wraps any other exception
into `RuntimeError("Job extraction failed: <msg>")`. -/
theorem C2_fallback_retry
    (p fp : String → Except PyError JobInfo)
    (soupText : String → String) (text url : String) (e : PyError)
    (hne : pyFalsy (pyStrip text) = false)
    (hp : p (preprocess soupText text) = Except.error e)
    (hnv : e.isValidation = false)
    (hth : isThrottled e.msg = true) :
    (extract_job_info (Except.ok p) (Except.ok fp) true true soupText text url).primaryCalls
      = 1 ∧
    (extract_job_info (Except.ok p) (Except.ok fp) true true soupText text url).fallbackCalls
      = 1 ∧
    (∀ raw, fp (preprocess soupText text) = Except.ok raw →
      (extract_job_info (Except.ok p) (Except.ok fp) true true soupText text url).result =
        (normalizeResult raw url).mapError outerWrap) ∧
    (∀ e2, fp (preprocess soupText text) = Except.error e2 →
      (extract_job_info (Except.ok p) (Except.ok fp) true true soupText text url).result =
        Except.error (outerWrap e2)) ∧
    (∀ m, outerWrap (PyError.valueError m) = PyError.valueError m) ∧
    (∀ m, outerWrap (PyError.runtimeError m) = PyError.runtimeError m) ∧
    (∀ k m, outerWrap (PyError.otherError k m) =
      PyError.runtimeError ("Job extraction failed: " ++ m)) := by
  have hcond := emptyCheck_false text hne
  refine ⟨?_, ?_, fun raw hraw => ?_, fun e2 he2 => ?_,
    fun m => rfl, fun m => rfl, fun k m => rfl⟩ <;>
    cases hfp : fp (preprocess soupText text) <;>
    simp_all [extract_job_info, hcond, hp, hnv, hth]

/-- Witness for C2: the concrete throttled run of `C2_fallback_retry`
makes exactly one fallback call and surfaces the wrapped retry error. -/
theorem C2_fallback_retry_witness :
    (extract_job_info (Except.ok throttleFail) (Except.ok fallbackBoom)
        true true (fun s => s) "Sample posting" "https://x/1").fallbackCalls = 1 ∧
    (extract_job_info (Except.ok throttleFail) (Except.ok fallbackBoom)
        true true (fun s => s) "Sample posting" "https://x/1").result =
      Except.error (outerWrap (PyError.otherError "ConnectionError" "boom")) :=
  have h := C2_fallback_retry throttleFail fallbackBoom (fun s => s)
    "Sample posting" "https://x/1"
    (PyError.otherError "Exception" "Error code: 429 - rate limit exceeded")
    (by decide) rfl (by decide) (by decide)
  ⟨h.2.1, h.2.2.2.1 (PyError.otherError "ConnectionError" "boom") rfl⟩

/-- Counterexample for C3 as stated: a non-throttled generic error
"connection reset" does propagate without retry, but the caller receives
a fresh `RuntimeError("Job extraction failed: connection reset")`, not
the same exception with the same message. -/
theorem C3_counterexample :
    (extract_job_info (Except.ok resetFail) (Except.ok fallbackBoom)
        true true (fun s => s) "Sample posting" "https://x/1") =
      { result := Except.error
          (PyError.runtimeError "Job extraction failed: connection reset")
        primaryCalls := 1, fallbackCalls := 0 } ∧
    PyError.runtimeError "Job extraction failed: connection reset" ≠
      PyError.otherError "OSError" "connection reset" :=
  ⟨rfl, by decide⟩

lemma run_error_no_retry
    (p : String → Except PyError JobInfo)
    (mkFallback : Except PyError (String → Except PyError JobInfo))
    (openaiKey openaiAvailable : Bool) (soupText : String → String)
    (text url : String) (e : PyError)
    (hne : pyFalsy (pyStrip text) = false)
    (hp : p (preprocess soupText text) = Except.error e)
    (hv : e.isValidation = false)
    (hth : (isThrottled e.msg && openaiKey && openaiAvailable) = false) :
    extract_job_info (Except.ok p) mkFallback openaiKey openaiAvailable soupText text url =
      { result := Except.error (outerWrap e), primaryCalls := 1, fallbackCalls := 0 } := by
  have hcond := emptyCheck_false text hne
  simp only [extract_job_info, hcond, hp, hv, hth, Bool.false_eq_true, if_false]

lemma run_error_validation
    (p : String → Except PyError JobInfo)
    (mkFallback : Except PyError (String → Except PyError JobInfo))
    (openaiKey openaiAvailable : Bool) (soupText : String → String)
    (text url : String) (e : PyError)
    (hne : pyFalsy (pyStrip text) = false)
    (hp : p (preprocess soupText text) = Except.error e)
    (hv : e.isValidation = true) :
    extract_job_info (Except.ok p) mkFallback openaiKey openaiAvailable soupText text url =
      { result := Except.error
          (PyError.runtimeError ("Extracted data validation failed: " ++ e.msg))
        primaryCalls := 1, fallbackCalls := 0 } := by
  have hcond := emptyCheck_false text hne
  simp only [extract_job_info, hcond, hp, hv, Bool.false_eq_true, if_false, if_true]

/-- Claim C3 (corrected): when the extraction call fails with an error
that is not classified as throttling, or with a throttling-classified
error while the fallback is not configured or not available, no retry is
attempted and the call fails; the error reaches the caller unchanged
exactly when it is a `ValueError` or `RuntimeError`, while a pydantic
`ValidationError` is re-raised as
`RuntimeError("Extracted data validation failed: <msg>")` and every other
exception is wrapped into `RuntimeError("Job extraction failed: <msg>")`. -/
theorem C3_error_propagation
    (p : String → Except PyError JobInfo)
    (mkFallback : Except PyError (String → Except PyError JobInfo))
    (openaiKey openaiAvailable : Bool) (soupText : String → String)
    (text url : String) (e : PyError)
    (hne : pyFalsy (pyStrip text) = false)
    (hp : p (preprocess soupText text) = Except.error e)
    (hth : (isThrottled e.msg && openaiKey && openaiAvailable) = false) :
    (extract_job_info (Except.ok p) mkFallback openaiKey openaiAvailable
      soupText text url).primaryCalls = 1 ∧
    (extract_job_info (Except.ok p) mkFallback openaiKey openaiAvailable
      soupText text url).fallbackCalls = 0 ∧
    (∀ m, e = PyError.valueError m →
      (extract_job_info (Except.ok p) mkFallback openaiKey openaiAvailable
        soupText text url).result = Except.error e) ∧
    (∀ m, e = PyError.runtimeError m →
      (extract_job_info (Except.ok p) mkFallback openaiKey openaiAvailable
        soupText text url).result = Except.error e) ∧
    (∀ m, e = PyError.validationError m →
      (extract_job_info (Except.ok p) mkFallback openaiKey openaiAvailable
        soupText text url).result = Except.error
          (PyError.runtimeError ("Extracted data validation failed: " ++ m))) ∧
    (∀ k m, e = PyError.otherError k m →
      (extract_job_info (Except.ok p) mkFallback openaiKey openaiAvailable
        soupText text url).result = Except.error
          (PyError.runtimeError ("Job extraction failed: " ++ m))) := by
  refine ⟨?_, ?_, fun m hm => ?_, fun m hm => ?_, fun m hm => ?_, fun k m hm => ?_⟩
  · cases hv : e.isValidation
    · rw [run_error_no_retry p mkFallback openaiKey openaiAvailable soupText text url e
        hne hp hv hth]
    · rw [run_error_validation p mkFallback openaiKey openaiAvailable soupText text url e
        hne hp hv]
  · cases hv : e.isValidation
    · rw [run_error_no_retry p mkFallback openaiKey openaiAvailable soupText text url e
        hne hp hv hth]
    · rw [run_error_validation p mkFallback openaiKey openaiAvailable soupText text url e
        hne hp hv]
  · subst hm
    rw [run_error_no_retry p mkFallback openaiKey openaiAvailable soupText text url _
      hne hp rfl hth]
    rfl
  · subst hm
    rw [run_error_no_retry p mkFallback openaiKey openaiAvailable soupText text url _
      hne hp rfl hth]
    rfl
  · subst hm
    rw [run_error_validation p mkFallback openaiKey openaiAvailable soupText text url _
      hne hp rfl]
    rfl
  · subst hm
    rw [run_error_no_retry p mkFallback openaiKey openaiAvailable soupText text url _
      hne hp rfl hth]
    rfl

/-- Witness for C3: the concrete non-throttled run of
`C3_error_propagation` makes no fallback call and surfaces the wrapped
error. -/
theorem C3_error_propagation_witness :
    (extract_job_info (Except.ok resetFail) (Except.ok fallbackBoom)
        true true (fun s => s) "Sample posting" "https://x/1").fallbackCalls = 0 ∧
    (extract_job_info (Except.ok resetFail) (Except.ok fallbackBoom)
        true true (fun s => s) "Sample posting" "https://x/1").result =
      Except.error (PyError.runtimeError "Job extraction failed: connection reset") :=
  have h := C3_error_propagation resetFail (Except.ok fallbackBoom) true true
    (fun s => s) "Sample posting" "https://x/1"
    (PyError.otherError "OSError" "connection reset")
    (by decide) rfl (by decide)
  ⟨h.2.1, h.2.2.2.2.2 "OSError" "connection reset" rfl⟩
